import Mathlib

/-!
Verification of the question-data extraction and normalization pipeline of the
judo-exam study tool.

The pure data model and the decision logic of the pipeline are embedded
shallowly from the TypeScript sources:

* `src/types/index.ts`           — `Question`, `Choice`, `SupplementReference`, …
* `src/config/categoryConfig.ts` — static category range tables
* `src/services/bessatsuRenderer.ts` (jsonQuestionLoader document) —
  `convertToQuestion`, the structured-JSON → `Question` conversion
* `src/services/questionGenerator.ts` — `generateQuestionsFromAnswerPdf`,
  the source-resolution orchestrator
* `src/components/QuestionSession.tsx` — `handleAnswer` grading

Impure collaborators (PDF fetching/text extraction, the regex-based parsers
`parseAnswerText` / `extractChoices` / `parseQuestionText`, and the supplement
reference detectors, whose sources are not in the snapshot) are modelled as an
explicit environment (`GenEnv`) of oracle results; the orchestrator's own
control flow over those results is translated from the source.  The choice
shuffle (`src/utils/choiceShuffle`, absent from the snapshot) is modelled from
the specification's §4.6 contract.
-/

namespace JudoExam

/-! ## Data model (src/types/index.ts) -/

inductive SessionType
  | gozen
  | gogo
deriving DecidableEq, Repr

/-- The string a `SessionType` interpolates to in JS template literals. -/
def sessionStr : SessionType → String
  | SessionType.gozen => "gozen"
  | SessionType.gogo => "gogo"

/-- The human-readable session label used in generated question headers. -/
def sessionLabel : SessionType → String
  | SessionType.gozen => "午前"
  | SessionType.gogo => "午後"

inductive CategoryId
  | anatomy
  | physiology
  | kinesiology
  | pathology
  | hygiene
  | clinical_general
  | surgery
  | orthopedics
  | rehabilitation
  | judo_therapy
  | law
deriving DecidableEq, Repr

structure Choice where
  label : String
  text : String
deriving DecidableEq, Repr

structure SupplementReference where
  referenceText : String
  supplementId : String
  imageNumber : String
deriving DecidableEq, Repr

structure Question where
  id : String
  year : Nat
  examNumber : Nat
  session : SessionType
  questionNumber : Nat
  questionText : String
  choices : List Choice
  correctAnswer : String
  correctAnswers : Option (List String)
  explanation : String
  sourceFile : String
  hasSupplementImage : Bool
  supplementReferences : List SupplementReference
  category : Option CategoryId
  pdfPath : Option String
  pdfPage : Option Nat
  isImageBased : Option Bool
  questionPageImage : Option String
  questionPageNumber : Option Nat
deriving DecidableEq, Repr

/-! ## Category configuration (src/config/categoryConfig.ts) -/

structure QuestionRangeMapping where
  startQuestion : Nat
  endQuestion : Nat
  category : CategoryId
deriving DecidableEq, Repr

def GOZEN_CATEGORY_MAPPING : List QuestionRangeMapping :=
  [⟨1, 40, CategoryId.judo_therapy⟩,
   ⟨41, 50, CategoryId.law⟩,
   ⟨51, 80, CategoryId.anatomy⟩,
   ⟨81, 105, CategoryId.physiology⟩,
   ⟨106, 115, CategoryId.kinesiology⟩,
   ⟨116, 128, CategoryId.pathology⟩]

def GOGO_CATEGORY_MAPPING : List QuestionRangeMapping :=
  [⟨1, 12, CategoryId.hygiene⟩,
   ⟨13, 23, CategoryId.rehabilitation⟩,
   ⟨24, 45, CategoryId.clinical_general⟩,
   ⟨46, 56, CategoryId.surgery⟩,
   ⟨57, 67, CategoryId.orthopedics⟩,
   ⟨68, 122, CategoryId.judo_therapy⟩]

def getCategoryByQuestionNumber (questionNumber : Nat) (session : SessionType) : CategoryId :=
  let mapping := match session with
    | SessionType.gozen => GOZEN_CATEGORY_MAPPING
    | SessionType.gogo => GOGO_CATEGORY_MAPPING
  match mapping.find? (fun r =>
      decide (r.startQuestion ≤ questionNumber) && decide (questionNumber ≤ r.endQuestion)) with
  | some r => r.category
  | none => CategoryId.judo_therapy

/-! ## Structured JSON sources (src/types/questionData.ts) -/

/-- `choices` record of a structured JSON question.  The loader accesses every
field defensively (`item.choices.a?.trim() || ''`), so each is optional. -/
structure JsonChoices where
  a : Option String
  b : Option String
  c : Option String
  d : Option String
  e : Option String
deriving DecidableEq, Repr

structure QuestionDataItem where
  questionNumber : Nat
  questionText : String
  choices : JsonChoices
  correctAnswer : Option String
  correctAnswers : Option (List String)
  category : Option CategoryId
  bessatsuPage : Option Nat
  bessatsuLabel : Option String
deriving DecidableEq, Repr

def getQuestionDataPath (examNumber : Nat) (session : SessionType) : String :=
  s!"/data/questions/{examNumber}_{sessionStr session}.json"

/-! ## JSON question loader (`convertToQuestion`, bessatsuRenderer.ts document 3,
the jsonQuestionLoader variant with in-file answer precedence) -/

/-- Whitespace test of JS `trim()` restricted to the ASCII whitespace
appearing in the sources. -/
def isWs (c : Char) : Bool :=
  c == ' ' || c == '\t' || c == '\n' || c == '\r'

/-- JS `s.trim()`: strip leading and trailing whitespace. -/
def jsTrim (s : String) : String :=
  ⟨(((s.data.dropWhile isWs).reverse.dropWhile isWs).reverse)⟩

/-- JS `s.substring(0, n)`. -/
def takeChars (s : String) (n : Nat) : String :=
  ⟨s.data.take n⟩

/-- `item.choices.x?.trim() || ''` -/
def jsonChoiceText (o : Option String) : String :=
  match o with
  | none => ""
  | some s => jsTrim s

/-- The raw four/five entry choice list built before empty choices are
discarded (`convertToQuestion`, choice construction). -/
def rawJsonChoices (cs : JsonChoices) : List Choice :=
  [⟨"a", jsonChoiceText cs.a⟩, ⟨"b", jsonChoiceText cs.b⟩,
   ⟨"c", jsonChoiceText cs.c⟩, ⟨"d", jsonChoiceText cs.d⟩] ++
  (match cs.e with
   | some e => if e ≠ "" ∧ jsTrim e ≠ "" then [⟨"e", jsTrim e⟩] else []
   | none => [])

/-- Answer selection of `convertToQuestion`: in-file `correctAnswers` first,
then in-file `correctAnswer`, then the separately loaded PDF answer map.
Returns `(correctAnswer, correctAnswers)`. -/
def jsonAnswerFields (item : QuestionDataItem) (pdfCorrectAnswers : List (Nat × List String)) :
    String × Option (List String) :=
  match item.correctAnswers with
  | some l =>
    if l.length > 0 then
      (l.headD "", if l.length > 1 then some l else none)
    else
      jsonAnswerFieldsFallback item pdfCorrectAnswers
  | none => jsonAnswerFieldsFallback item pdfCorrectAnswers
where
  jsonAnswerFieldsFallback (item : QuestionDataItem)
      (pdfCorrectAnswers : List (Nat × List String)) : String × Option (List String) :=
    match item.correctAnswer with
    | some ca =>
      if ca ≠ "" then (ca, none)
      else
        let pdfAnswerList := (pdfCorrectAnswers.lookup item.questionNumber).getD []
        (pdfAnswerList.headD "", if pdfAnswerList.length > 1 then some pdfAnswerList else none)
    | none =>
      let pdfAnswerList := (pdfCorrectAnswers.lookup item.questionNumber).getD []
      (pdfAnswerList.headD "", if pdfAnswerList.length > 1 then some pdfAnswerList else none)

def convertToQuestion (item : QuestionDataItem) (examNumber year : Nat) (session : SessionType)
    (pdfCorrectAnswers : List (Nat × List String)) : Question :=
  let id := s!"{examNumber}-{sessionStr session}-{item.questionNumber}"
  let filteredChoices := (rawJsonChoices item.choices).filter (fun c => c.text != "")
  let answers := jsonAnswerFields item pdfCorrectAnswers
  let category := match item.category with
    | some c => c
    | none => getCategoryByQuestionNumber item.questionNumber session
  { id := id
    year := year
    examNumber := examNumber
    session := session
    questionNumber := item.questionNumber
    questionText := jsTrim item.questionText
    choices := filteredChoices
    correctAnswer := answers.1
    correctAnswers := answers.2
    explanation := ""
    sourceFile := s!"{examNumber}_{sessionStr session}.json"
    hasSupplementImage := match item.bessatsuPage with
      | some p => p != 0
      | none => false
    supplementReferences := match item.bessatsuPage with
      | some p =>
        if p ≠ 0 then
          [⟨(match item.bessatsuLabel with
             | some l => if l ≠ "" then l else s!"別冊 ページ{p}"
             | none => s!"別冊 ページ{p}"),
            s!"{examNumber}-{sessionStr session}-bessatsu-{p}",
            toString p⟩]
        else []
      | none => []
    category := some category
    pdfPath := none
    pdfPage := none
    isImageBased := some false
    questionPageImage := none
    questionPageNumber := none }

/-! ## Answer-key entries and supplement records -/

/-- Output shape of `parseAnswerText` (answerParser, source not in snapshot)
as consumed by the orchestrator: `a.session`, `a.questionNumber`,
`a.correctAnswers`. -/
structure AnswerEntry where
  questionNumber : Nat
  session : SessionType
  correctAnswers : List String
deriving DecidableEq, Repr

structure ExamConfig where
  year : Nat
deriving DecidableEq, Repr

/-- Supplement record as mapped in `generateQuestionsFromAnswerPdf`
(lines 278–284): id, image number, exam/session, optional question numbers. -/
structure SuppRec where
  id : String
  imageNumber : String
  examNumber : Nat
  session : SessionType
  questionNumbers : Option (List Nat)
deriving DecidableEq, Repr

/-! ## Supplement reference merge (questionGenerator.ts lines 546–577) -/

/-- `supplements.filter(supp => supp.questionNumbers &&
supp.questionNumbers.includes(answer.questionNumber))` -/
def supplementsForQuestion (supps : List SuppRec) (qn : Nat) : List SuppRec :=
  supps.filter fun s =>
    match s.questionNumbers with
    | some ns => ns.contains qn
    | none => false

/-- The metadata-driven merge: every supplement record pointing at this
question whose image number is not already among the existing references is
appended (membership is tested against the set computed once, before the
loop). -/
def mergeSupplementRefs (linked0 : List SupplementReference) (supps : List SuppRec)
    (qn : Nat) : List SupplementReference :=
  let forThis := supplementsForQuestion supps qn
  let existingImageNumbers := linked0.map (fun r => r.imageNumber)
  linked0 ++ (forThis.filter fun s => !(existingImageNumbers.contains s.imageNumber)).map
    (fun s => ⟨s!"別冊 {s.imageNumber}", s.id, s.imageNumber⟩)

/-! ## The orchestrator (src/services/questionGenerator.ts) -/

/-- Environment of oracle results for the impure collaborators of
`generateQuestionsFromAnswerPdf`: file-existence checks, the JSON loader, the
config lookups, PDF text extraction outcomes, and the regex-based parsers
whose implementations live outside the snapshot. -/
structure GenEnv where
  /-- `checkJsonExists` on the first structured try. -/
  jsonExists : Bool
  /-- `loadQuestionsFromJson` result on the first structured try. -/
  jsonQuestions : List Question
  /-- `getExamConfig examNumber`. -/
  examConfig : Option ExamConfig
  /-- `getAnswerPdfPath examNumber`. -/
  answerPdfPath : Option String
  /-- `getQuestionPdfPath examNumber session`. -/
  questionPdfPath : Option String
  /-- Supplement records extracted from the bessatsu PDF (empty when the PDF
  is absent or its load fails). -/
  supplements : List SuppRec
  /-- `extractTextFromPDF answerPdfPath`: extracted text or thrown message. -/
  answerExtract : Except String String
  /-- `extractTextFromPDF questionPdfPath`. -/
  questionExtract : Except String String
  /-- `parseAnswerText answerText examNumber` (answerParser, not in
  snapshot). -/
  parsedAnswers : List AnswerEntry
  /-- `checkJsonExists` on the fallback re-check inside the PDF path. -/
  jsonExistsRetry : Bool
  /-- `loadQuestionsFromJson` result on the fallback re-check. -/
  jsonQuestionsRetry : List Question
  /-- Outcome of the question-section pattern cascade (lines 421–455) for a
  question number: the located section, or `none` when every pattern fails. -/
  sectionFor : Nat → Option String
  /-- `parseQuestionText(section).questionText` (pdfParser, not in
  snapshot); `none`/`""` both mean falsy. -/
  parsedQuestionText : String → Option String
  /-- Final extracted choice list for a located section: `extractChoices`
  (pdfParser, not in snapshot) followed by the in-source fallback regex
  loops; `[]` when every strategy fails. -/
  extractedChoices : String → List Choice
  /-- `detectSupplementReferences questionText` (supplementLinker, not in
  snapshot). -/
  textRefs : String → List SupplementReference
  /-- `linkSupplementReferences refs examNumber session supplements`
  (supplementLinker, not in snapshot). -/
  linkRefs : List SupplementReference → List SupplementReference

/-- Observable side effects of one orchestrator run, for the fallback-ordering
claims. -/
inductive GenEvent
  | jsonLoad
  | extractAnswerPdf
  | extractQuestionPdf
  | jsonFallbackCheck
  | jsonFallbackLoad
deriving DecidableEq, Repr

/-! Error messages thrown by the orchestrator. -/

def answerPdfMissingMsg (examNumber : Nat) : String :=
  s!"正答PDFが見つかりません: 第{examNumber}回（設定ファイルを確認してください）"

def questionPdfMissingMsg (examNumber : Nat) (session : SessionType) : String :=
  s!"問題PDFが見つかりません: 第{examNumber}回 {sessionStr session}（設定ファイルを確認してください）"

def answerExtractFailMsg (answerPdfPath innerMsg : String) : String :=
  s!"正答PDFの読み込みに失敗: {answerPdfPath} - {innerMsg}"

def answerEmptyTextMsg (answerPdfPath : String) : String :=
  s!"正答PDFのテキスト抽出に失敗（空のテキスト）: {answerPdfPath}"

def answerKeyEmptyMsg (examNumber : Nat) (session : SessionType) : String :=
  s!"正答データが見つかりません: 第{examNumber}回 {sessionStr session}。抽出されたテキストを確認してください。"

def questionExtractFailMsg (questionPdfPath innerMsg : String) : String :=
  s!"問題PDFのテキスト抽出に失敗: {questionPdfPath} - {innerMsg}"

/-- Constant body of the JSON shape template embedded in the scanned-image
guidance error (questionGenerator.ts lines 386–401).  `\x7b`/`\x7d` are the
literal braces of the JSON sketch. -/
def jsonShapeCore : String :=
  "  \"totalQuestions\": 115,\n  \"questions\": [\n    \x7b\n      \"questionNumber\": 1,\n      \"questionText\": \"問題文をここに入力\",\n      \"choices\": \x7b\n        \"a\": \"選択肢1\",\n        \"b\": \"選択肢2\",\n        \"c\": \"選択肢3\",\n        \"d\": \"選択肢4\",\n        \"e\": \"選択肢5\"\n      \x7d,\n      \"bessatsuPage\": 1  // 別冊が必要な場合のページ番号（省略可）\n    \x7d\n  ]\n\x7d"

/-- The scanned-image guidance error (questionGenerator.ts lines 378–401): the
expected structured-file path followed by the JSON shape template. -/
def scanImageGuidanceMsg (examNumber : Nat) (session : SessionType) (year : Nat) : String :=
  "問題PDFはスキャン画像のためテキスト抽出ができません。\nJSONファイル（" ++
    getQuestionDataPath examNumber session ++
    ("）を作成して問題データを入力してください。\n\nJSONファイルの形式:\n\x7b\n  \"examNumber\": " ++
      toString examNumber ++ ",\n  \"year\": " ++ toString year ++ ",\n  \"session\": \"" ++
      sessionStr session ++ "\",\n" ++ jsonShapeCore)

/-- The outer catch (lines 610–616) rewraps every error thrown inside the try
block. -/
def genFailMsg (examNumber : Nat) (session : SessionType) (innerMsg : String) : String :=
  s!"第{examNumber}回 {sessionStr session}の問題生成に失敗: {innerMsg}"

/-- Placeholder choice set used when a question section is located but no
choice-extraction strategy succeeds (lines 520–525). -/
def placeholderNoChoices : List Choice :=
  [⟨"a", "選択肢が見つかりませんでした"⟩, ⟨"b", "選択肢が見つかりませんでした"⟩,
   ⟨"c", "選択肢が見つかりませんでした"⟩, ⟨"d", "選択肢が見つかりませんでした"⟩]

/-- Placeholder choice set used when no question section is located
(lines 530–535). -/
def placeholderNoQuestion : List Choice :=
  [⟨"a", "問題が見つかりませんでした"⟩, ⟨"b", "問題が見つかりませんでした"⟩,
   ⟨"c", "問題が見つかりませんでした"⟩, ⟨"d", "問題が見つかりませんでした"⟩]

/-- Initial question text before section parsing (line 416). -/
def defaultQuestionText (examNumber : Nat) (session : SessionType) (qn : Nat) : String :=
  s!"第{examNumber}回 {sessionLabel session} 問{qn}"

/-- Assembly of one `Question` from one answer entry (the loop body,
questionGenerator.ts lines 412–605). -/
def buildQuestion (env : GenEnv) (examNumber : Nat) (session : SessionType) (year : Nat)
    (questionPdfPath : String) (answer : AnswerEntry) : Question :=
  let questionId := s!"{examNumber}-{sessionStr session}-{answer.questionNumber}"
  let textAndChoices : String × List Choice :=
    match env.sectionFor answer.questionNumber with
    | some questionSection =>
      let questionText := match env.parsedQuestionText questionSection with
        | some t => if t = "" then takeChars questionSection 500 else t
        | none => takeChars questionSection 500
      let extractedChoices := env.extractedChoices questionSection
      let choices := if extractedChoices.length > 0 then extractedChoices
        else placeholderNoChoices
      (questionText, choices)
    | none =>
      (defaultQuestionText examNumber session answer.questionNumber, placeholderNoQuestion)
  let questionText := textAndChoices.1
  let choices := textAndChoices.2
  let correctAnswer := match answer.correctAnswers with
    | [] => "a"
    | h :: _ => if h = "" then "a" else h
  let supplementReferences := env.textRefs questionText
  let linkedSupplementReferences :=
    if env.supplements.length > 0 then
      let linked0 := if supplementReferences.length > 0 then env.linkRefs supplementReferences
        else supplementReferences
      mergeSupplementRefs linked0 env.supplements answer.questionNumber
    else supplementReferences
  { id := questionId
    year := year
    examNumber := examNumber
    session := session
    questionNumber := answer.questionNumber
    questionText := questionText
    choices := choices
    correctAnswer := correctAnswer
    correctAnswers := some answer.correctAnswers
    explanation :=
      let joined := String.intercalate ", " answer.correctAnswers
      if answer.correctAnswers.length > 1 then s!"複数正答: {joined}" else ""
    sourceFile := questionPdfPath
    hasSupplementImage := linkedSupplementReferences.length > 0
    supplementReferences := linkedSupplementReferences
    category := none
    pdfPath := some questionPdfPath
    pdfPage := none
    isImageBased := some false
    questionPageImage := none
    questionPageNumber := none }

/-- The PDF-extraction phase (everything after the first structured try,
questionGenerator.ts lines 228–616).  `ev0` carries events already emitted. -/
def generateFromPdf (env : GenEnv) (examNumber : Nat) (session : SessionType)
    (ev0 : List GenEvent) : Except String (List Question) × List GenEvent :=
  match env.examConfig with
  | none => (Except.ok [], ev0)
  | some examConfig =>
    match env.answerPdfPath with
    | none => (Except.error (answerPdfMissingMsg examNumber), ev0)
    | some answerPdfPath =>
      match env.questionPdfPath with
      | none => (Except.error (questionPdfMissingMsg examNumber session), ev0)
      | some questionPdfPath =>
        let ev1 := ev0 ++ [GenEvent.extractAnswerPdf]
        match env.answerExtract with
        | Except.error e =>
          (Except.error (genFailMsg examNumber session (answerExtractFailMsg answerPdfPath e)), ev1)
        | Except.ok answerText =>
          if (jsTrim answerText).length = 0 then
            (Except.error (genFailMsg examNumber session (answerEmptyTextMsg answerPdfPath)), ev1)
          else
            let sessionAnswers := env.parsedAnswers.filter (fun a => a.session == session)
            if sessionAnswers.length = 0 then
              (Except.error (genFailMsg examNumber session (answerKeyEmptyMsg examNumber session)),
               ev1)
            else
              let ev2 := ev1 ++ [GenEvent.extractQuestionPdf]
              match env.questionExtract with
              | Except.error e =>
                let ev3 := ev2 ++ [GenEvent.jsonFallbackCheck]
                if env.jsonExistsRetry then
                  let ev4 := ev3 ++ [GenEvent.jsonFallbackLoad]
                  if env.jsonQuestionsRetry.length > 0 then
                    (Except.ok env.jsonQuestionsRetry, ev4)
                  else
                    (Except.error
                      (genFailMsg examNumber session (questionExtractFailMsg questionPdfPath e)),
                     ev4)
                else
                  (Except.error
                    (genFailMsg examNumber session (questionExtractFailMsg questionPdfPath e)), ev3)
              | Except.ok questionPdfText =>
                if (jsTrim questionPdfText).length < 100 then
                  let ev3 := ev2 ++ [GenEvent.jsonFallbackCheck]
                  if env.jsonExistsRetry then
                    let ev4 := ev3 ++ [GenEvent.jsonFallbackLoad]
                    if env.jsonQuestionsRetry.length > 0 then
                      (Except.ok env.jsonQuestionsRetry, ev4)
                    else
                      (Except.error
                        (genFailMsg examNumber session
                          (scanImageGuidanceMsg examNumber session examConfig.year)), ev4)
                  else
                    (Except.error
                      (genFailMsg examNumber session
                        (scanImageGuidanceMsg examNumber session examConfig.year)), ev3)
                else
                  (Except.ok
                    (sessionAnswers.map
                      (buildQuestion env examNumber session examConfig.year questionPdfPath)), ev2)

/-- The source-resolution orchestrator: structured JSON first, PDF extraction
otherwise (questionGenerator.ts lines 210–617). -/
def generateQuestionsFromAnswerPdf (env : GenEnv) (examNumber : Nat) (session : SessionType) :
    Except String (List Question) × List GenEvent :=
  if env.jsonExists then
    if env.jsonQuestions.length > 0 then
      (Except.ok env.jsonQuestions, [GenEvent.jsonLoad])
    else
      generateFromPdf env examNumber session [GenEvent.jsonLoad]
  else
    generateFromPdf env examNumber session []

/-! ## Grading (src/components/QuestionSession.tsx, `handleAnswer`) -/

/-- ASCII case lowering of one character, the behaviour of JS
`toLowerCase()` on the label/answer alphabet. -/
def lowerChar (c : Char) : Char :=
  if 65 ≤ c.toNat ∧ c.toNat ≤ 90 then Char.ofNat (c.toNat + 32) else c

/-- ASCII case lowering of a string (`selectedAnswer.toLowerCase()`). -/
def strLower (s : String) : String :=
  ⟨s.data.map lowerChar⟩

/-- The `correctAnswerList` of `handleAnswer`: `correctAnswers` when present
and non-empty, else `[correctAnswer]`. -/
def gradingList (q : Question) : List String :=
  match q.correctAnswers with
  | some l => if l.length > 0 then l else [q.correctAnswer]
  | none => [q.correctAnswer]

/-- `handleAnswer`'s correctness test: some grading entry matches the selected
label case-insensitively. -/
def isCorrectSelection (q : Question) (selectedAnswer : String) : Bool :=
  (gradingList q).any fun ca => strLower ca == strLower selectedAnswer

/-- Grading a selection by the text content of the chosen option: some choice
carries that text and its label grades as correct. -/
def gradeByText (q : Question) (selectedText : String) : Bool :=
  q.choices.any fun c => c.text == selectedText && isCorrectSelection q c.label

/-! ## Choice shuffle.

Modelled from the spec: the implementation of `shuffleAllChoices`
(`src/utils/choiceShuffle`) is not part of the source snapshot; the model
follows §4.6 of the specification: given a permutation of the choice array,
labels a, b, c, … are reassigned in the new order, a mapping from old label to
new label is built by matching each choice's original label, and
`correctAnswer` and every entry of `correctAnswers` are remapped through it. -/

/-- The i-th label of the fixed alphabet: `"a"`, `"b"`, … -/
def labelOf (i : Nat) : String :=
  String.singleton (Char.ofNat (97 + i))

/-- Position of the choice carrying a given original label. -/
def findLabelIdx (label : String) : List Choice → Option Nat
  | [] => none
  | c :: cs =>
    match c.label == label with
    | true => some 0
    | false => (findLabelIdx label cs).map (· + 1)

/-- Old-label → new-label mapping: the label of the position where the choice
with that original label landed; labels matching no choice are left
unchanged. -/
def newLabelFor (permuted : List Choice) (oldLabel : String) : String :=
  match findLabelIdx oldLabel permuted with
  | some i => labelOf i
  | none => oldLabel

/-- Reassign labels `a`, `b`, `c`, … in the order of the permuted list. -/
def relabelChoices : Nat → List Choice → List Choice
  | _, [] => []
  | i, c :: cs => ⟨labelOf i, c.text⟩ :: relabelChoices (i + 1) cs

/-- Modelled from the spec (§4.6): the shuffled copy of a question for one
permutation `permuted` of its choice list. -/
def shuffleQuestionChoices (q : Question) (permuted : List Choice) : Question :=
  { q with
    choices := relabelChoices 0 permuted
    correctAnswer := newLabelFor permuted q.correctAnswer
    correctAnswers := q.correctAnswers.map (List.map (newLabelFor permuted)) }

/-- `needle` occurs contiguously inside `hay`. -/
def ContainsSub (hay needle : String) : Prop :=
  ∃ pre post, hay = pre ++ needle ++ post

/-- `needle` is an initial segment of `hay` (character lists). -/
def isPreList : List Char → List Char → Bool
  | [], _ => true
  | _ :: _, [] => false
  | a :: as, b :: bs => a == b && isPreList as bs

/-- `needle` occurs contiguously inside `hay` (character lists), computable
witness checker for `ContainsSub`. -/
def hasSubList (needle : List Char) : List Char → Bool
  | [] => isPreList needle []
  | c :: cs => isPreList needle (c :: cs) || hasSubList needle cs

def strContainsSub (hay needle : String) : Bool :=
  hasSubList needle.data hay.data

/-! ## Concrete instances used by the scenario checks -/

/-- Concrete scenario 1 of the spec: one structured question with four choices
and an in-file single `correctAnswer`. -/
def item1 : QuestionDataItem :=
  { questionNumber := 1
    questionText := "Q"
    choices := { a := some "X", b := some "Y", c := some "Z", d := some "W", e := none }
    correctAnswer := some "b"
    correctAnswers := none
    category := none
    bessatsuPage := none
    bessatsuLabel := none }

/-- Concrete scenario 2: same record with in-file `correctAnswers` and no
`correctAnswer`. -/
def item2 : QuestionDataItem :=
  { item1 with
    correctAnswer := none
    correctAnswers := some ["a", "c"] }

/-- Same record with no in-file answer at all: the PDF map applies. -/
def item3 : QuestionDataItem :=
  { item1 with
    correctAnswer := none
    correctAnswers := none }

/-- A structured record whose `correctAnswers` entries are not labels of its
choices. -/
def itemC5 : QuestionDataItem :=
  { item1 with
    choices := { a := some "X", b := some "Y", c := none, d := none, e := none }
    correctAnswer := none
    correctAnswers := some ["a", "x"] }

/-- A structured record with a single non-empty choice. -/
def itemC7 : QuestionDataItem :=
  { item1 with
    choices := { a := some "X", b := none, c := none, d := none, e := none } }

/-- A three-choice question in canonical form. -/
def q0 : Question :=
  { id := "30-gozen-1"
    year := 2022
    examNumber := 30
    session := SessionType.gozen
    questionNumber := 1
    questionText := "t"
    choices := [⟨"a", "X"⟩, ⟨"b", "Y"⟩, ⟨"c", "Z"⟩]
    correctAnswer := "b"
    correctAnswers := none
    explanation := ""
    sourceFile := ""
    hasSupplementImage := false
    supplementReferences := []
    category := none
    pdfPath := none
    pdfPage := none
    isImageBased := none
    questionPageImage := none
    questionPageNumber := none }

/-- Spec scenario 5's permutation of `q0`'s choices: "Y" moves to position 0. -/
def perm0 : List Choice :=
  [⟨"b", "Y"⟩, ⟨"c", "Z"⟩, ⟨"a", "X"⟩]

/-- Baseline environment: no structured source, no resolvable paths, every
oracle failing. -/
def envBase : GenEnv :=
  { jsonExists := false
    jsonQuestions := []
    examConfig := some ⟨2022⟩
    answerPdfPath := none
    questionPdfPath := none
    supplements := []
    answerExtract := Except.error "x"
    questionExtract := Except.error "x"
    parsedAnswers := []
    jsonExistsRetry := false
    jsonQuestionsRetry := []
    sectionFor := fun _ => none
    parsedQuestionText := fun _ => none
    extractedChoices := fun _ => []
    textRefs := fun _ => []
    linkRefs := fun r => r }

/-- Structured source present and non-empty. -/
def envJson : GenEnv :=
  { envBase with
    jsonExists := true
    jsonQuestions := [q0] }

/-- No structured source and an unresolvable answer-key path. -/
def envNoAnswerPath : GenEnv := envBase

/-- PDF path reached, answer key extracted, but zero entries parsed for the
session. -/
def envEmptyKey : GenEnv :=
  { envBase with
    answerPdfPath := some "/a.pdf"
    questionPdfPath := some "/q.pdf"
    answerExtract := Except.ok "回 1 a" }

/-- PDF path reached with one morning answer but the question PDF's extraction
throwing (e.g. every page empty). -/
def envExtractThrows : GenEnv :=
  { envBase with
    answerPdfPath := some "/a.pdf"
    questionPdfPath := some "/q.pdf"
    answerExtract := Except.ok "回 1 a"
    parsedAnswers := [⟨1, SessionType.gozen, ["a"]⟩]
    questionExtract := Except.error "boom" }

/-- PDF path reached with one morning answer but the question PDF's text below
the minimal-content threshold, and no structured fallback. -/
def envShortText : GenEnv :=
  { envExtractThrows with
    questionExtract := Except.ok "short" }

/-- 120 characters of extractable question text. -/
def longText : String :=
  ⟨List.replicate 120 'x'⟩

/-- Successful PDF path: two morning answers, one question section missing,
the other located but yielding zero choices. -/
def envParse : GenEnv :=
  { envBase with
    answerPdfPath := some "/a.pdf"
    questionPdfPath := some "/q.pdf"
    answerExtract := Except.ok "回 1 a 2 b"
    parsedAnswers := [⟨1, SessionType.gozen, ["a"]⟩, ⟨2, SessionType.gozen, ["b", "d"]⟩]
    questionExtract := Except.ok longText
    sectionFor := fun n => if n = 2 then some "sec2" else none }

/-- Two supplement records sharing one image number, both pointing at
question 1. -/
def suppDup : List SuppRec :=
  [⟨"s1", "1", 30, SessionType.gozen, some [1]⟩,
   ⟨"s2", "1", 30, SessionType.gozen, some [1]⟩]

/-! ## Helper lemmas: substring checker soundness -/

theorem isPreList_append (n post : List Char) : isPreList n (n ++ post) = true := by
  induction n with
  | nil => rfl
  | cons a as ih => simp [isPreList, ih]

theorem hasSubList_append (n pre post : List Char) :
    hasSubList n (pre ++ (n ++ post)) = true := by
  induction pre with
  | nil =>
    cases h : n ++ post with
    | nil =>
      rcases List.append_eq_nil.mp h with ⟨hn, _⟩
      subst hn
      simp [hasSubList, isPreList]
    | cons c cs =>
      have h1 : isPreList n (c :: cs) = true := h ▸ isPreList_append n post
      simp [hasSubList, h1]
  | cons p ps ih =>
    simp [hasSubList, ih]

theorem containsSub_check (hay needle : String) (h : ContainsSub hay needle) :
    strContainsSub hay needle = true := by
  obtain ⟨pre, post, hp⟩ := h
  subst hp
  simp only [strContainsSub, String.data_append]
  rw [List.append_assoc]
  exact hasSubList_append _ _ _

/-! ## Claim theorems -/

/-- C2.  Loading the structured record `{questionNumber: 1,
choices: {a: "X", b: "Y", c: "Z", d: "W"}, correctAnswer: "b"}` yields one
`Question` with four choices, `correctAnswer = "b"`, `correctAnswers = none`;
the record with `correctAnswers = ["a", "c"]` and no `correctAnswer` instead
yields `correctAnswer = "a"` and `correctAnswers = some ["a", "c"]`; the
separately loaded PDF answer map (here mapping question 1 to `["d"]`) is
consulted only when the record carries no in-file answer. -/
theorem claim_C2_structured_load :
    (convertToQuestion item1 30 2022 SessionType.gozen [(1, ["d"])]).choices
        = [⟨"a", "X"⟩, ⟨"b", "Y"⟩, ⟨"c", "Z"⟩, ⟨"d", "W"⟩]
    ∧ (convertToQuestion item1 30 2022 SessionType.gozen [(1, ["d"])]).correctAnswer = "b"
    ∧ (convertToQuestion item1 30 2022 SessionType.gozen [(1, ["d"])]).correctAnswers = none
    ∧ (convertToQuestion item2 30 2022 SessionType.gozen [(1, ["d"])]).correctAnswer = "a"
    ∧ (convertToQuestion item2 30 2022 SessionType.gozen [(1, ["d"])]).correctAnswers
        = some ["a", "c"]
    ∧ (convertToQuestion item3 30 2022 SessionType.gozen [(1, ["d"])]).correctAnswer = "d" := by
  decide

set_option maxRecDepth 4000 in
/-- C10.  `handleAnswer` marks a selection correct iff it matches, after
ASCII case lowering, some element of `correctAnswers` when that list is
present and non-empty, and otherwise the single `correctAnswer`; the single
`correctAnswer` is ignored whenever `correctAnswers` is non-empty. -/
theorem claim_C10_grading (q : Question) (selectedAnswer : String) :
    (isCorrectSelection q selectedAnswer = true ↔
      ((∃ l, q.correctAnswers = some l ∧ l ≠ [] ∧
          ∃ ca ∈ l, strLower ca = strLower selectedAnswer)
        ∨ ((q.correctAnswers = none ∨ q.correctAnswers = some []) ∧
            strLower q.correctAnswer = strLower selectedAnswer)))
    ∧ (∀ l, q.correctAnswers = some l → l ≠ [] → ∀ x,
        isCorrectSelection { q with correctAnswer := x } selectedAnswer
          = isCorrectSelection q selectedAnswer) := by
  constructor
  · rcases hca : q.correctAnswers with _ | l
    · simp [isCorrectSelection, gradingList, hca, List.any_eq_true]
    · cases l with
      | nil => simp [isCorrectSelection, gradingList, hca, List.any_eq_true]
      | cons a as =>
        simp [isCorrectSelection, gradingList, hca, List.any_eq_true]
  · intro l hl hne x
    cases l with
    | nil => exact absurd rfl hne
    | cons a as => simp [isCorrectSelection, gradingList, hl]

/-- Witness for C10 at a concrete question: `correctAnswers = ["a", "B"]`
grades the selection `"b"` correct regardless of the `correctAnswer` field. -/
theorem claim_C10_grading_witness :
    isCorrectSelection
        { q0 with correctAnswers := some ["a", "B"], correctAnswer := "c" } "b" = true
      ∧ isCorrectSelection
          { q0 with correctAnswers := some ["a", "B"], correctAnswer := "x" } "b"
        = isCorrectSelection { q0 with correctAnswers := some ["a", "B"], correctAnswer := "c" } "b" := by
  constructor
  · exact (claim_C10_grading { q0 with correctAnswers := some ["a", "B"], correctAnswer := "c" }
      "b").1.mpr (Or.inl ⟨["a", "B"], rfl, by decide, "B", by decide, by decide⟩)
  · exact (claim_C10_grading { q0 with correctAnswers := some ["a", "B"], correctAnswer := "c" }
      "b").2 ["a", "B"] rfl (by decide) "x"

/-! ## Helper lemmas: orchestrator control flow -/

theorem gen_eq_fromPdf (env : GenEnv) (examNumber : Nat) (session : SessionType)
    (hjson : env.jsonExists = false ∨ env.jsonQuestions = []) :
    generateQuestionsFromAnswerPdf env examNumber session
        = generateFromPdf env examNumber session []
      ∨ generateQuestionsFromAnswerPdf env examNumber session
        = generateFromPdf env examNumber session [GenEvent.jsonLoad] := by
  cases hje : env.jsonExists with
  | false =>
    left
    simp [generateQuestionsFromAnswerPdf, hje]
  | true =>
    right
    have hq : env.jsonQuestions = [] := by
      rcases hjson with h | h
      · rw [hje] at h; exact absurd h (by simp)
      · exact h
    simp [generateQuestionsFromAnswerPdf, hje, hq]

theorem fromPdf_answerKeyEmpty (env : GenEnv) (examNumber : Nat) (session : SessionType)
    (ev0 : List GenEvent) (cfg : ExamConfig) (ap qp t : String)
    (hcfg : env.examConfig = some cfg) (hap : env.answerPdfPath = some ap)
    (hqp : env.questionPdfPath = some qp) (hex : env.answerExtract = Except.ok t)
    (ht : (jsTrim t).length ≠ 0)
    (hemp : env.parsedAnswers.filter (fun a => a.session == session) = []) :
    generateFromPdf env examNumber session ev0
      = (Except.error (genFailMsg examNumber session (answerKeyEmptyMsg examNumber session)),
         ev0 ++ [GenEvent.extractAnswerPdf]) := by
  simp [generateFromPdf, hcfg, hap, hqp, hex, ht, hemp]

theorem fromPdf_success (env : GenEnv) (examNumber : Nat) (session : SessionType)
    (ev0 : List GenEvent) (cfg : ExamConfig) (ap qp t u : String)
    (hcfg : env.examConfig = some cfg) (hap : env.answerPdfPath = some ap)
    (hqp : env.questionPdfPath = some qp) (hex : env.answerExtract = Except.ok t)
    (ht : (jsTrim t).length ≠ 0)
    (hne : env.parsedAnswers.filter (fun a => a.session == session) ≠ [])
    (hqe : env.questionExtract = Except.ok u) (hu : ¬ (jsTrim u).length < 100) :
    generateFromPdf env examNumber session ev0
      = (Except.ok ((env.parsedAnswers.filter (fun a => a.session == session)).map
            (buildQuestion env examNumber session cfg.year qp)),
         ev0 ++ [GenEvent.extractAnswerPdf, GenEvent.extractQuestionPdf]) := by
  have hlen : (env.parsedAnswers.filter (fun a => a.session == session)).length ≠ 0 :=
    fun h => hne (List.length_eq_zero.mp h)
  simp [generateFromPdf, hcfg, hap, hqp, hex, ht, hlen, hqe, hu]

theorem fromPdf_events_answer (env : GenEnv) (examNumber : Nat) (session : SessionType)
    (ev0 : List GenEvent) (cfg : ExamConfig) (ap qp : String)
    (hcfg : env.examConfig = some cfg) (hap : env.answerPdfPath = some ap)
    (hqp : env.questionPdfPath = some qp) :
    GenEvent.extractAnswerPdf ∈ (generateFromPdf env examNumber session ev0).2 := by
  simp only [generateFromPdf, hcfg, hap, hqp]
  rcases env.answerExtract with e | t
  · simp
  · by_cases ht : (jsTrim t).length = 0
    · simp [ht]
    · simp only [ht, if_false]
      by_cases hl : (env.parsedAnswers.filter (fun a => a.session == session)).length = 0
      · simp [hl]
      · simp only [hl, if_false]
        rcases env.questionExtract with e | u
        · by_cases hr : env.jsonExistsRetry <;>
            by_cases hq : env.jsonQuestionsRetry.length > 0 <;>
            simp [hr, hq, List.mem_append]
        · by_cases hu : (jsTrim u).length < 100
          · by_cases hr : env.jsonExistsRetry <;>
              by_cases hq : env.jsonQuestionsRetry.length > 0 <;>
              simp [hu, hr, hq, List.mem_append]
          · simp [hu, List.mem_append]

theorem fromPdf_events_question (env : GenEnv) (examNumber : Nat) (session : SessionType)
    (ev0 : List GenEvent) (cfg : ExamConfig) (ap qp t : String)
    (hcfg : env.examConfig = some cfg) (hap : env.answerPdfPath = some ap)
    (hqp : env.questionPdfPath = some qp) (hex : env.answerExtract = Except.ok t)
    (ht : (jsTrim t).length ≠ 0)
    (hne : env.parsedAnswers.filter (fun a => a.session == session) ≠ []) :
    GenEvent.extractQuestionPdf ∈ (generateFromPdf env examNumber session ev0).2 := by
  have hlen : (env.parsedAnswers.filter (fun a => a.session == session)).length ≠ 0 :=
    fun h => hne (List.length_eq_zero.mp h)
  simp only [generateFromPdf, hcfg, hap, hqp, hex, ht, if_false, hlen]
  rcases env.questionExtract with e | u
  · by_cases hr : env.jsonExistsRetry <;>
      by_cases hq : env.jsonQuestionsRetry.length > 0 <;>
      simp [hr, hq, List.mem_append]
  · by_cases hu : (jsTrim u).length < 100
    · by_cases hr : env.jsonExistsRetry <;>
        by_cases hq : env.jsonQuestionsRetry.length > 0 <;>
        simp [hu, hr, hq, List.mem_append]
    · simp [hu, List.mem_append]

/-- C1, counterexample to the claim as stated: with the structured source
absent and the answer-key PDF path unresolvable, the orchestrator declares
failure without ever attempting text extraction. -/
theorem claim_C1_counterexample :
    (generateQuestionsFromAnswerPdf envNoAnswerPath 30 SessionType.gozen).1
        = Except.error (answerPdfMissingMsg 30)
    ∧ GenEvent.extractAnswerPdf ∉ (generateQuestionsFromAnswerPdf envNoAnswerPath 30 SessionType.gozen).2
    ∧ GenEvent.extractQuestionPdf ∉ (generateQuestionsFromAnswerPdf envNoAnswerPath 30 SessionType.gozen).2 := by
  refine ⟨rfl, ?_, ?_⟩ <;> decide

/-- C1, amended.  If the structured source is present and yields at least one
question, those questions are returned and no PDF text extraction event is
emitted.  If the structured source is absent or yields zero questions and the
exam config and both PDF paths resolve, the answer-key extraction is attempted
before any failure is declared; the question-PDF extraction is additionally
attempted whenever the answer key extracted successfully with at least one
answer for the session.  (When a required path is unresolvable, the task fails
without attempting extraction.) -/
theorem claim_C1_amended (env : GenEnv) (examNumber : Nat) (session : SessionType) :
    (env.jsonExists = true → env.jsonQuestions ≠ [] →
      generateQuestionsFromAnswerPdf env examNumber session
          = (Except.ok env.jsonQuestions, [GenEvent.jsonLoad])
        ∧ GenEvent.extractAnswerPdf ∉ (generateQuestionsFromAnswerPdf env examNumber session).2
        ∧ GenEvent.extractQuestionPdf ∉ (generateQuestionsFromAnswerPdf env examNumber session).2)
    ∧ (∀ cfg ap qp, (env.jsonExists = false ∨ env.jsonQuestions = []) →
        env.examConfig = some cfg → env.answerPdfPath = some ap →
        env.questionPdfPath = some qp →
        (∀ msg, (generateQuestionsFromAnswerPdf env examNumber session).1 = Except.error msg →
          GenEvent.extractAnswerPdf ∈ (generateQuestionsFromAnswerPdf env examNumber session).2)
        ∧ (∀ t, env.answerExtract = Except.ok t → (jsTrim t).length ≠ 0 →
            env.parsedAnswers.filter (fun a => a.session == session) ≠ [] →
            GenEvent.extractQuestionPdf ∈ (generateQuestionsFromAnswerPdf env examNumber session).2)) := by
  constructor
  · intro hje hq
    have hlen : env.jsonQuestions.length > 0 := List.length_pos.mpr hq
    have hres : generateQuestionsFromAnswerPdf env examNumber session
        = (Except.ok env.jsonQuestions, [GenEvent.jsonLoad]) := by
      simp [generateQuestionsFromAnswerPdf, hje, hlen]
    refine ⟨hres, ?_, ?_⟩ <;> rw [hres] <;> simp
  · intro cfg ap qp hjson hcfg hap hqp
    rcases gen_eq_fromPdf env examNumber session hjson with hg | hg <;>
      exact ⟨fun msg _ => by
          rw [hg]; exact fromPdf_events_answer env examNumber session _ cfg ap qp hcfg hap hqp,
        fun t hex ht hne => by
          rw [hg];
          exact fromPdf_events_question env examNumber session _ cfg ap qp t hcfg hap hqp hex ht hne⟩

/-- Witness for C1 (amended) at concrete environments: the structured-source
branch returns the loaded questions with no extraction event, and in the
extraction branch with resolvable paths the answer-key extraction event is
emitted before the empty-key failure. -/
theorem claim_C1_amended_witness :
    generateQuestionsFromAnswerPdf envJson 30 SessionType.gozen
        = (Except.ok [q0], [GenEvent.jsonLoad])
    ∧ GenEvent.extractAnswerPdf
        ∈ (generateQuestionsFromAnswerPdf envEmptyKey 30 SessionType.gozen).2 := by
  constructor
  · exact ((claim_C1_amended envJson 30 SessionType.gozen).1 rfl (by decide)).1
  · exact ((claim_C1_amended envEmptyKey 30 SessionType.gozen).2 ⟨2022⟩ "/a.pdf" "/q.pdf"
      (Or.inl rfl) rfl rfl rfl).1
      (genFailMsg 30 SessionType.gozen (answerKeyEmptyMsg 30 SessionType.gozen)) rfl

/-- C3.  In the PDF-extraction path, when the answer key extracts successfully
but zero answer entries are parsed for the requested session, the orchestrator
fails the whole (exam, session) task with the answer-key-empty error and never
returns a question list. -/
theorem claim_C3_answer_key_empty (env : GenEnv) (examNumber : Nat) (session : SessionType)
    (cfg : ExamConfig) (ap qp t : String)
    (hjson : env.jsonExists = false ∨ env.jsonQuestions = [])
    (hcfg : env.examConfig = some cfg) (hap : env.answerPdfPath = some ap)
    (hqp : env.questionPdfPath = some qp) (hex : env.answerExtract = Except.ok t)
    (ht : (jsTrim t).length ≠ 0)
    (hemp : env.parsedAnswers.filter (fun a => a.session == session) = []) :
    (generateQuestionsFromAnswerPdf env examNumber session).1
        = Except.error (genFailMsg examNumber session (answerKeyEmptyMsg examNumber session))
    ∧ ∀ qs, (generateQuestionsFromAnswerPdf env examNumber session).1 ≠ Except.ok qs := by
  have h1 : (generateQuestionsFromAnswerPdf env examNumber session).1
      = Except.error (genFailMsg examNumber session (answerKeyEmptyMsg examNumber session)) := by
    rcases gen_eq_fromPdf env examNumber session hjson with hg | hg <;>
      rw [hg, fromPdf_answerKeyEmpty env examNumber session _ cfg ap qp t hcfg hap hqp hex ht hemp]
  exact ⟨h1, fun qs hqs => by rw [h1] at hqs; exact Except.noConfusion hqs⟩

/-- Witness for C3: the concrete environment with a successfully extracted
answer key and zero parsed entries fails with the answer-key-empty error. -/
theorem claim_C3_answer_key_empty_witness :
    (generateQuestionsFromAnswerPdf envEmptyKey 30 SessionType.gozen).1
        = Except.error (genFailMsg 30 SessionType.gozen (answerKeyEmptyMsg 30 SessionType.gozen))
    ∧ (generateQuestionsFromAnswerPdf envEmptyKey 30 SessionType.gozen).1
        ≠ Except.ok [] := by
  have h := claim_C3_answer_key_empty envEmptyKey 30 SessionType.gozen ⟨2022⟩ "/a.pdf" "/q.pdf"
    "回 1 a" (Or.inl rfl) rfl rfl rfl rfl (by decide) rfl
  exact ⟨h.1, h.2 []⟩

/-- C4, counterexample to the claim as stated: when the question PDF's text
extraction itself fails (the empty-text / scanned-image case), the structured
fallback is attempted, but the session-fatal error carries the plain
extraction-failure message, which contains neither the expected
structured-file path nor the JSON shape template. -/
theorem claim_C4_counterexample :
    (generateQuestionsFromAnswerPdf envExtractThrows 30 SessionType.gozen).1
        = Except.error (genFailMsg 30 SessionType.gozen (questionExtractFailMsg "/q.pdf" "boom"))
    ∧ GenEvent.jsonFallbackCheck
        ∈ (generateQuestionsFromAnswerPdf envExtractThrows 30 SessionType.gozen).2
    ∧ ¬ ContainsSub (genFailMsg 30 SessionType.gozen (questionExtractFailMsg "/q.pdf" "boom"))
        (getQuestionDataPath 30 SessionType.gozen)
    ∧ ¬ ContainsSub (genFailMsg 30 SessionType.gozen (questionExtractFailMsg "/q.pdf" "boom"))
        jsonShapeCore := by
  refine ⟨rfl, by decide, ?_, ?_⟩ <;>
    exact fun h => absurd (containsSub_check _ _ h) (by decide)

theorem containsSub_tail (a b : String) : ContainsSub (a ++ b) b :=
  ⟨a, "", by rw [String.append_empty]⟩

theorem containsSub_self_append (needle post : String) : ContainsSub (needle ++ post) needle :=
  ⟨"", post, (String.empty_append _).symm⟩

theorem containsSub_cons (a : String) {hay needle : String} (h : ContainsSub hay needle) :
    ContainsSub (a ++ hay) needle := by
  obtain ⟨pre, post, hp⟩ := h
  exact ⟨a ++ pre, post, by rw [hp]; simp [String.append_assoc]⟩

theorem fromPdf_shortText (env : GenEnv) (examNumber : Nat) (session : SessionType)
    (ev0 : List GenEvent) (cfg : ExamConfig) (ap qp t u : String)
    (hcfg : env.examConfig = some cfg) (hap : env.answerPdfPath = some ap)
    (hqp : env.questionPdfPath = some qp) (hex : env.answerExtract = Except.ok t)
    (ht : (jsTrim t).length ≠ 0)
    (hne : env.parsedAnswers.filter (fun a => a.session == session) ≠ [])
    (hqe : env.questionExtract = Except.ok u) (hu : (jsTrim u).length < 100) :
    generateFromPdf env examNumber session ev0
      = (if env.jsonExistsRetry then
           if env.jsonQuestionsRetry.length > 0 then
             (Except.ok env.jsonQuestionsRetry,
              ev0 ++ [GenEvent.extractAnswerPdf, GenEvent.extractQuestionPdf,
                GenEvent.jsonFallbackCheck, GenEvent.jsonFallbackLoad])
           else
             (Except.error (genFailMsg examNumber session
                (scanImageGuidanceMsg examNumber session cfg.year)),
              ev0 ++ [GenEvent.extractAnswerPdf, GenEvent.extractQuestionPdf,
                GenEvent.jsonFallbackCheck, GenEvent.jsonFallbackLoad])
         else
           (Except.error (genFailMsg examNumber session
              (scanImageGuidanceMsg examNumber session cfg.year)),
            ev0 ++ [GenEvent.extractAnswerPdf, GenEvent.extractQuestionPdf,
              GenEvent.jsonFallbackCheck])) := by
  have hlen : (env.parsedAnswers.filter (fun a => a.session == session)).length ≠ 0 :=
    fun h => hne (List.length_eq_zero.mp h)
  by_cases hr : env.jsonExistsRetry <;>
    by_cases hq : env.jsonQuestionsRetry.length > 0 <;>
    simp [generateFromPdf, hcfg, hap, hqp, hex, ht, hlen, hqe, hu, hr, hq]

/-- C4, amended.  When the question PDF's text is successfully extracted but
falls below the minimal-content threshold (trimmed length < 100), the
orchestrator attempts one more fallback to the structured JSON source; if that
fallback yields questions they are returned, and only otherwise does it raise
a session-fatal error whose message contains the expected structured-file path
and the JSON shape template.  (When extraction itself fails — e.g. empty text
on every page — the fallback is still attempted but the final error carries
the extraction-failure message instead, per the counterexample.) -/
theorem claim_C4_amended (env : GenEnv) (examNumber : Nat) (session : SessionType)
    (cfg : ExamConfig) (ap qp t u : String)
    (hjson : env.jsonExists = false ∨ env.jsonQuestions = [])
    (hcfg : env.examConfig = some cfg) (hap : env.answerPdfPath = some ap)
    (hqp : env.questionPdfPath = some qp) (hex : env.answerExtract = Except.ok t)
    (ht : (jsTrim t).length ≠ 0)
    (hne : env.parsedAnswers.filter (fun a => a.session == session) ≠ [])
    (hqe : env.questionExtract = Except.ok u) (hu : (jsTrim u).length < 100) :
    GenEvent.jsonFallbackCheck ∈ (generateQuestionsFromAnswerPdf env examNumber session).2
    ∧ (env.jsonExistsRetry = true → env.jsonQuestionsRetry ≠ [] →
        (generateQuestionsFromAnswerPdf env examNumber session).1
          = Except.ok env.jsonQuestionsRetry)
    ∧ ((env.jsonExistsRetry = false ∨ env.jsonQuestionsRetry = []) →
        (generateQuestionsFromAnswerPdf env examNumber session).1
          = Except.error (genFailMsg examNumber session
              (scanImageGuidanceMsg examNumber session cfg.year)))
    ∧ ContainsSub (scanImageGuidanceMsg examNumber session cfg.year)
        (getQuestionDataPath examNumber session)
    ∧ ContainsSub (scanImageGuidanceMsg examNumber session cfg.year) jsonShapeCore := by
  have key : ∀ ev0,
      GenEvent.jsonFallbackCheck ∈ (generateFromPdf env examNumber session ev0).2
      ∧ (env.jsonExistsRetry = true → env.jsonQuestionsRetry ≠ [] →
          (generateFromPdf env examNumber session ev0).1 = Except.ok env.jsonQuestionsRetry)
      ∧ ((env.jsonExistsRetry = false ∨ env.jsonQuestionsRetry = []) →
          (generateFromPdf env examNumber session ev0).1
            = Except.error (genFailMsg examNumber session
                (scanImageGuidanceMsg examNumber session cfg.year))) := by
    intro ev0
    rw [fromPdf_shortText env examNumber session ev0 cfg ap qp t u hcfg hap hqp hex ht hne hqe hu]
    by_cases hr : env.jsonExistsRetry <;> by_cases hq : env.jsonQuestionsRetry.length > 0
    · refine ⟨by simp [hr, hq, List.mem_append], fun _ _ => by simp [hr, hq], fun hc => ?_⟩
      rcases hc with hc | hc
      · rw [hr] at hc; exact absurd hc (by simp)
      · rw [hc] at hq; exact absurd hq (by simp)
    · exact ⟨by simp [hr, hq, List.mem_append], fun _ hqr =>
        absurd (List.length_pos.mpr hqr) hq, fun _ => by simp [hr, hq]⟩
    · exact ⟨by simp [hr, hq, List.mem_append], fun hr2 _ => absurd hr2 (by simp [hr]),
        fun _ => by simp [hr]⟩
    · exact ⟨by simp [hr, hq, List.mem_append], fun hr2 _ => absurd hr2 (by simp [hr]),
        fun _ => by simp [hr]⟩
  have hpath : ContainsSub (scanImageGuidanceMsg examNumber session cfg.year)
      (getQuestionDataPath examNumber session) := by
    unfold scanImageGuidanceMsg
    exact ⟨_, _, rfl⟩
  have hcore : ContainsSub (scanImageGuidanceMsg examNumber session cfg.year) jsonShapeCore := by
    unfold scanImageGuidanceMsg
    exact containsSub_cons _ (containsSub_tail _ _)
  rcases gen_eq_fromPdf env examNumber session hjson with hg | hg <;>
    · rw [hg]
      obtain ⟨k1, k2, k3⟩ := key _
      exact ⟨k1, k2, k3, hpath, hcore⟩

/-- Witness for C4 (amended): the concrete short-text environment with no
structured fallback fails with the guidance error, whose message contains the
concrete expected path and the JSON shape template. -/
theorem claim_C4_amended_witness :
    (generateQuestionsFromAnswerPdf envShortText 30 SessionType.gozen).1
        = Except.error (genFailMsg 30 SessionType.gozen
            (scanImageGuidanceMsg 30 SessionType.gozen 2022))
    ∧ GenEvent.jsonFallbackCheck
        ∈ (generateQuestionsFromAnswerPdf envShortText 30 SessionType.gozen).2
    ∧ ContainsSub (scanImageGuidanceMsg 30 SessionType.gozen 2022)
        (getQuestionDataPath 30 SessionType.gozen) := by
  have h := claim_C4_amended envShortText 30 SessionType.gozen ⟨2022⟩ "/a.pdf" "/q.pdf"
    "回 1 a" "short" (Or.inl rfl) rfl rfl rfl rfl (by decide) (by decide) rfl (by decide)
  exact ⟨h.2.2.1 (Or.inl rfl), h.1, h.2.2.2.1⟩

/-- C9.  In the PDF-extraction path, per-question parse failures never abort
the session: the orchestrator emits exactly one `Question` per session answer
entry; an entry whose section is not located gets the placeholder header text
and the "question not found" placeholder choices, and an entry whose section
is located but yields zero choices gets the "choices not found" placeholder
choices — all other entries are processed unaffected. -/
theorem claim_C9_placeholder_degradation (env : GenEnv) (examNumber : Nat)
    (session : SessionType) (cfg : ExamConfig) (ap qp t u : String)
    (hjson : env.jsonExists = false ∨ env.jsonQuestions = [])
    (hcfg : env.examConfig = some cfg) (hap : env.answerPdfPath = some ap)
    (hqp : env.questionPdfPath = some qp) (hex : env.answerExtract = Except.ok t)
    (ht : (jsTrim t).length ≠ 0)
    (hne : env.parsedAnswers.filter (fun a => a.session == session) ≠ [])
    (hqe : env.questionExtract = Except.ok u) (hu : ¬ (jsTrim u).length < 100) :
    (generateQuestionsFromAnswerPdf env examNumber session).1
        = Except.ok ((env.parsedAnswers.filter (fun a => a.session == session)).map
            (buildQuestion env examNumber session cfg.year qp))
    ∧ ((env.parsedAnswers.filter (fun a => a.session == session)).map
          (buildQuestion env examNumber session cfg.year qp)).length
        = (env.parsedAnswers.filter (fun a => a.session == session)).length
    ∧ (∀ a, env.sectionFor a.questionNumber = none →
        (buildQuestion env examNumber session cfg.year qp a).choices = placeholderNoQuestion
        ∧ (buildQuestion env examNumber session cfg.year qp a).questionText
            = defaultQuestionText examNumber session a.questionNumber)
    ∧ (∀ a sec, env.sectionFor a.questionNumber = some sec →
        env.extractedChoices sec = [] →
        (buildQuestion env examNumber session cfg.year qp a).choices
          = placeholderNoChoices) := by
  refine ⟨?_, List.length_map _ _, ?_, ?_⟩
  · rcases gen_eq_fromPdf env examNumber session hjson with hg | hg <;>
      rw [hg, fromPdf_success env examNumber session _ cfg ap qp t u hcfg hap hqp hex ht hne
        hqe hu]
  · intro a hs
    constructor <;> simp [buildQuestion, hs]
  · intro a sec hs hc
    simp [buildQuestion, hs, hc]

/-- Witness for C9: in the concrete environment, question 1's section is
missing and question 2's section yields no choices, yet the run succeeds with
two questions carrying the respective placeholders. -/
theorem claim_C9_placeholder_degradation_witness :
    (generateQuestionsFromAnswerPdf envParse 30 SessionType.gozen).1
        = Except.ok
            ([⟨1, SessionType.gozen, ["a"]⟩, ⟨2, SessionType.gozen, ["b", "d"]⟩].map
              (buildQuestion envParse 30 SessionType.gozen 2022 "/q.pdf"))
    ∧ (buildQuestion envParse 30 SessionType.gozen 2022 "/q.pdf"
          ⟨1, SessionType.gozen, ["a"]⟩).choices = placeholderNoQuestion
    ∧ (buildQuestion envParse 30 SessionType.gozen 2022 "/q.pdf"
          ⟨2, SessionType.gozen, ["b", "d"]⟩).choices = placeholderNoChoices := by
  have h := claim_C9_placeholder_degradation envParse 30 SessionType.gozen ⟨2022⟩
    "/a.pdf" "/q.pdf" "回 1 a 2 b" longText (Or.inl rfl) rfl rfl rfl rfl (by decide)
    (by decide) rfl (by decide)
  exact ⟨h.1, (h.2.2.1 ⟨1, SessionType.gozen, ["a"]⟩ rfl).1,
    h.2.2.2 ⟨2, SessionType.gozen, ["b", "d"]⟩ "sec2" rfl rfl⟩

/-- The in-file/PDF answer selection always sets the primary answer to the
head of any multi-answer list it installs. -/
theorem jsonAnswerFields_head (item : QuestionDataItem) (m : List (Nat × List String))
    (a : String) (as : List String) (h : (jsonAnswerFields item m).2 = some (a :: as)) :
    (jsonAnswerFields item m).1 = a := by
  rcases hca : item.correctAnswers with _ | l <;>
    rcases hc : item.correctAnswer with _ | ca <;>
    simp only [jsonAnswerFields, jsonAnswerFields.jsonAnswerFieldsFallback, hca, hc] at h ⊢ <;>
    split_ifs at h ⊢ <;>
    simp_all

/-- C5, counterexample to the claim as stated: a structured record whose
`correctAnswers` is `["a", "x"]` over choices labelled `a`, `b` is loaded
verbatim — `"x"` matches no choice label even case-insensitively, so the
multi-answer membership invariant does not hold for produced questions. -/
theorem claim_C5_counterexample :
    (convertToQuestion itemC5 30 2022 SessionType.gozen []).correctAnswers = some ["a", "x"]
    ∧ (convertToQuestion itemC5 30 2022 SessionType.gozen []).choices.map Choice.label
        = ["a", "b"]
    ∧ ((convertToQuestion itemC5 30 2022 SessionType.gozen []).choices.any
          (fun c => strLower c.label == strLower "x")) = false := by
  decide

/-- C5, amended.  For every produced Question whose `correctAnswers` is set,
the primary `correctAnswer` equals its first element — in the JSON path
unconditionally, and in the PDF path provided the first parsed answer token is
non-empty (an empty token falls back to `"a"`).  The elements of
`correctAnswers` are not validated against the choice labels. -/
theorem claim_C5_amended :
    (∀ (item : QuestionDataItem) (examNumber year : Nat) (session : SessionType)
        (pdfMap : List (Nat × List String)) (a : String) (as : List String),
      (convertToQuestion item examNumber year session pdfMap).correctAnswers = some (a :: as) →
      (convertToQuestion item examNumber year session pdfMap).correctAnswer = a)
    ∧ (∀ (env : GenEnv) (examNumber : Nat) (session : SessionType) (year : Nat) (qp : String)
        (answer : AnswerEntry) (a : String) (as : List String),
        answer.correctAnswers = a :: as → a ≠ "" →
        (buildQuestion env examNumber session year qp answer).correctAnswer = a
        ∧ (buildQuestion env examNumber session year qp answer).correctAnswers
            = some (a :: as)) := by
  constructor
  · intro item examNumber year session pdfMap a as h
    exact jsonAnswerFields_head item pdfMap a as h
  · intro env examNumber session year qp answer a as hca ha
    constructor <;> simp [buildQuestion, hca, ha]

/-- Witness for C5 (amended) at concrete inputs: the scenario-2 record's
primary answer is the head of its answer list, and a PDF-path entry with
answers `["b", "d"]` yields `correctAnswer = "b"` and
`correctAnswers = some ["b", "d"]`. -/
theorem claim_C5_amended_witness :
    (convertToQuestion item2 30 2022 SessionType.gozen [(1, ["d"])]).correctAnswer = "a"
    ∧ (buildQuestion envBase 30 SessionType.gozen 2022 "/q.pdf"
          ⟨5, SessionType.gozen, ["b", "d"]⟩).correctAnswer = "b"
    ∧ (buildQuestion envBase 30 SessionType.gozen 2022 "/q.pdf"
          ⟨5, SessionType.gozen, ["b", "d"]⟩).correctAnswers = some ["b", "d"] := by
  refine ⟨claim_C5_amended.1 item2 30 2022 SessionType.gozen [(1, ["d"])] "a" ["c"]
      (by decide), ?_, ?_⟩
  · exact (claim_C5_amended.2 envBase 30 SessionType.gozen 2022 "/q.pdf"
      ⟨5, SessionType.gozen, ["b", "d"]⟩ "b" ["d"] rfl (by decide)).1
  · exact (claim_C5_amended.2 envBase 30 SessionType.gozen 2022 "/q.pdf"
      ⟨5, SessionType.gozen, ["b", "d"]⟩ "b" ["d"] rfl (by decide)).2

/-- The labels of the raw structured-choice list form a sublist of the fixed
alphabet `a..e`. -/
theorem rawJsonChoices_labels (cs : JsonChoices) :
    ((rawJsonChoices cs).map Choice.label).Sublist ["a", "b", "c", "d", "e"] := by
  rcases he : cs.e with _ | e
  · simp only [rawJsonChoices, he, List.map_append, List.map_cons, List.map_nil,
      List.append_nil]
    decide
  · by_cases hcond : e ≠ "" ∧ jsTrim e ≠ ""
    · simp only [rawJsonChoices, he]
      rw [if_pos hcond]
      simp only [List.map_append, List.map_cons, List.map_nil]
      decide
    · simp only [rawJsonChoices, he]
      rw [if_neg hcond]
      simp only [List.map_append, List.map_cons, List.map_nil, List.append_nil]
      decide

/-- C7, counterexample to the claim as stated: a structured record with a
single non-empty choice yields a `Question` with one choice — the 2-choice
lower bound does not hold for loaded questions. -/
theorem claim_C7_counterexample :
    (convertToQuestion itemC7 30 2022 SessionType.gozen []).choices.length = 1
    ∧ ¬ (2 ≤ (convertToQuestion itemC7 30 2022 SessionType.gozen []).choices.length) := by
  decide

/-- C7, amended.  Every Question loaded from the structured JSON source has at
most 5 choices after empty choices are discarded, all labels unique and drawn
from `a..e`, and no choice with empty display text; the 2-choice lower bound
is not enforced. -/
theorem claim_C7_amended (item : QuestionDataItem) (examNumber year : Nat)
    (session : SessionType) (pdfMap : List (Nat × List String)) :
    (convertToQuestion item examNumber year session pdfMap).choices.length ≤ 5
    ∧ ((convertToQuestion item examNumber year session pdfMap).choices.map Choice.label).Nodup
    ∧ (∀ c ∈ (convertToQuestion item examNumber year session pdfMap).choices,
        c.label ∈ (["a", "b", "c", "d", "e"] : List String))
    ∧ (∀ c ∈ (convertToQuestion item examNumber year session pdfMap).choices,
        c.text ≠ "") := by
  have hch : (convertToQuestion item examNumber year session pdfMap).choices
      = (rawJsonChoices item.choices).filter (fun c => c.text != "") := rfl
  have hsub : (((rawJsonChoices item.choices).filter (fun c => c.text != "")).map
        Choice.label).Sublist (["a", "b", "c", "d", "e"] : List String) :=
    ((List.filter_sublist _).map Choice.label).trans (rawJsonChoices_labels item.choices)
  refine ⟨?_, ?_, ?_, ?_⟩
  · rw [hch]
    have := hsub.length_le
    simpa using this
  · rw [hch]
    exact hsub.nodup (by decide)
  · intro c hc
    rw [hch] at hc
    exact hsub.subset (List.mem_map_of_mem Choice.label hc)
  · intro c hc
    rw [hch] at hc
    have := (List.mem_filter.mp hc).2
    simpa using this

/-- Witness for C7 (amended) at the scenario-1 record: four choices, unique
labels among `a..e`, no empty text. -/
theorem claim_C7_amended_witness :
    (convertToQuestion item1 30 2022 SessionType.gozen []).choices.length ≤ 5
    ∧ ((convertToQuestion item1 30 2022 SessionType.gozen []).choices.map Choice.label).Nodup := by
  exact ⟨(claim_C7_amended item1 30 2022 SessionType.gozen []).1,
    (claim_C7_amended item1 30 2022 SessionType.gozen []).2.1⟩

/-- C8, counterexample to the claim as stated: two supplement records sharing
an image number and pointing at the same question are both appended — the
membership set is computed once, before the loop — so the final reference
list can contain two entries with the same image number. -/
theorem claim_C8_counterexample :
    (mergeSupplementRefs [] suppDup 1).map (fun r => r.imageNumber) = ["1", "1"]
    ∧ ¬ ((mergeSupplementRefs [] suppDup 1).map (fun r => r.imageNumber)).Nodup := by
  decide

/-- C8, amended.  A metadata-driven link is appended only when its image
number is not already present among the pre-merge (text-driven) references;
consequently, whenever the text-driven references are duplicate-free and the
supplement records carry pairwise distinct image numbers, the merged list has
no two entries with the same image number.  Duplicates among the supplement
records themselves are not filtered. -/
theorem claim_C8_amended (linked0 : List SupplementReference) (supps : List SuppRec) (qn : Nat)
    (h1 : (linked0.map (fun r => r.imageNumber)).Nodup)
    (h2 : (supps.map (fun s => s.imageNumber)).Nodup) :
    ((mergeSupplementRefs linked0 supps qn).map (fun r => r.imageNumber)).Nodup
    ∧ ∀ r ∈ mergeSupplementRefs linked0 supps qn,
        r ∈ linked0 ∨ r.imageNumber ∉ linked0.map (fun x => x.imageNumber) := by
  have hmerge : mergeSupplementRefs linked0 supps qn
      = linked0 ++ ((supplementsForQuestion supps qn).filter
          (fun s => !((linked0.map (fun r => r.imageNumber)).contains s.imageNumber))).map
            (fun s => ⟨s!"別冊 {s.imageNumber}", s.id, s.imageNumber⟩) := rfl
  have hmapF : ∀ (F : List SuppRec),
      (F.map (fun s => (⟨s!"別冊 {s.imageNumber}", s.id, s.imageNumber⟩ :
          SupplementReference))).map (fun r => r.imageNumber)
        = F.map (fun s => s.imageNumber) := by
    intro F
    rw [List.map_map]
    rfl
  have hFsub : (((supplementsForQuestion supps qn).filter
        (fun s => !((linked0.map (fun r => r.imageNumber)).contains s.imageNumber))).map
          (fun s => s.imageNumber)).Sublist (supps.map (fun s => s.imageNumber)) :=
    ((List.filter_sublist _).trans (List.filter_sublist _)).map _
  have hnotmem : ∀ s ∈ (supplementsForQuestion supps qn).filter
      (fun s => !((linked0.map (fun r => r.imageNumber)).contains s.imageNumber)),
      s.imageNumber ∉ linked0.map (fun r => r.imageNumber) := by
    intro s hs hmem
    have hp := (List.mem_filter.mp hs).2
    rw [Bool.not_eq_true'] at hp
    have helem : List.elem s.imageNumber (linked0.map (fun r => r.imageNumber)) = true :=
      List.elem_iff.mpr hmem
    have hcontains : (linked0.map (fun r => r.imageNumber)).contains s.imageNumber = true :=
      helem
    rw [hp] at hcontains
    exact Bool.noConfusion hcontains
  constructor
  · rw [hmerge, List.map_append, hmapF]
    refine List.nodup_append.mpr ⟨h1, hFsub.nodup h2, ?_⟩
    intro a ha hb
    obtain ⟨s, hsF, rfl⟩ := List.mem_map.mp hb
    exact hnotmem s hsF ha
  · intro r hr
    rw [hmerge] at hr
    rcases List.mem_append.mp hr with h | h
    · exact Or.inl h
    · obtain ⟨s, hsF, rfl⟩ := List.mem_map.mp h
      exact Or.inr (hnotmem s hsF)

/-- Witness for C8 (amended): one pre-existing reference with image number 2
merged with a single supplement record of image number 1 yields references
with distinct image numbers. -/
theorem claim_C8_amended_witness :
    ((mergeSupplementRefs [⟨"別冊 2", "s0", "2"⟩]
        [⟨"s1", "1", 30, SessionType.gozen, some [1]⟩] 1).map
          (fun r => r.imageNumber)).Nodup := by
  exact (claim_C8_amended [⟨"別冊 2", "s0", "2"⟩]
    [⟨"s1", "1", 30, SessionType.gozen, some [1]⟩] 1 (by decide) (by decide)).1

/-! ## Helper lemmas: choice shuffle -/

theorem labelOf_inj : ∀ i, i < 26 → ∀ j, j < 26 → labelOf i = labelOf j → i = j := by
  decide

theorem strLower_labelOf : ∀ i, i < 26 → strLower (labelOf i) = labelOf i := by
  decide

theorem relabel_any (p : Choice → Bool) :
    ∀ (j : Nat) (l : List Choice),
      ((relabelChoices j l).any p = true ↔
        ∃ i, ∃ h : i < l.length, p ⟨labelOf (j + i), (l.get ⟨i, h⟩).text⟩ = true) := by
  intro j l
  induction l generalizing j with
  | nil => simp [relabelChoices]
  | cons c cs ih =>
    simp only [relabelChoices, List.any_cons, Bool.or_eq_true, ih]
    constructor
    · rintro (hp | ⟨i, hi, hp⟩)
      · exact ⟨0, by simp, by simpa using hp⟩
      · refine ⟨i + 1, by simp only [List.length_cons]; omega, ?_⟩
        have heq : j + (i + 1) = j + 1 + i := by omega
        rw [heq]
        exact hp
    · rintro ⟨i, hi, hp⟩
      cases i with
      | zero =>
        left
        simpa using hp
      | succ i' =>
        right
        have hi2 : i' < cs.length := by simp only [List.length_cons] at hi; omega
        refine ⟨i', hi2, ?_⟩
        have heq : j + 1 + i' = j + (i' + 1) := by omega
        rw [heq]
        exact hp

theorem findLabelIdx_get (l : List Choice) (hn : (l.map Choice.label).Nodup) (i : Nat)
    (h : i < l.length) : findLabelIdx ((l.get ⟨i, h⟩).label) l = some i := by
  induction l generalizing i with
  | nil => exact absurd h (by simp)
  | cons c cs ih =>
    have hn' : (c.label :: cs.map Choice.label).Nodup := by simpa using hn
    obtain ⟨hnm, hncs⟩ := List.nodup_cons.mp hn'
    cases i with
    | zero => simp [findLabelIdx]
    | succ i' =>
      have h' : i' < cs.length := Nat.lt_of_succ_lt_succ h
      have hgs : (c :: cs).get ⟨i' + 1, h⟩ = cs.get ⟨i', h'⟩ := rfl
      rw [hgs]
      have hmem : (cs.get ⟨i', h'⟩).label ∈ cs.map Choice.label :=
        List.mem_map_of_mem Choice.label (List.get_mem cs i' h')
      have hne : (c.label == (cs.get ⟨i', h'⟩).label) = false :=
        beq_eq_false_iff_ne.mpr fun he => hnm (he ▸ hmem)
      simp only [findLabelIdx, hne, ih hncs i' h', Option.map_some']

theorem gradingList_shuffle (q : Question) (permuted : List Choice) :
    gradingList (shuffleQuestionChoices q permuted)
      = (gradingList q).map (newLabelFor permuted) := by
  rcases hca : q.correctAnswers with _ | l
  · simp [gradingList, shuffleQuestionChoices, hca]
  · cases l with
    | nil => simp [gradingList, shuffleQuestionChoices, hca]
    | cons a as => simp [gradingList, shuffleQuestionChoices, hca]

theorem newLabel_match (permuted : List Choice)
    (hn : (permuted.map Choice.label).Nodup) (hlen : permuted.length ≤ 26)
    (a : String) (ha : a ∈ permuted.map Choice.label) (i : Nat) (h : i < permuted.length) :
    (strLower (newLabelFor permuted a) == strLower (labelOf i))
      = ((permuted.get ⟨i, h⟩).label == a) := by
  obtain ⟨c, hc, hcla⟩ := List.mem_map.mp ha
  obtain ⟨⟨j, hj⟩, hget⟩ := List.mem_iff_get.mp hc
  have hfi : findLabelIdx a permuted = some j := by
    rw [← hcla, ← hget]
    exact findLabelIdx_get permuted hn j hj
  have hnl : newLabelFor permuted a = labelOf j := by
    simp [newLabelFor, hfi]
  rw [hnl, strLower_labelOf j (lt_of_lt_of_le hj hlen),
    strLower_labelOf i (lt_of_lt_of_le h hlen)]
  rw [Bool.eq_iff_iff]
  simp only [beq_iff_eq]
  constructor
  · intro hji
    have hij : j = i := labelOf_inj j (lt_of_lt_of_le hj hlen) i (lt_of_lt_of_le h hlen) hji
    have hfin : (⟨i, h⟩ : Fin permuted.length) = ⟨j, hj⟩ := Fin.ext hij.symm
    rw [hfin, hget]
    exact hcla
  · intro hlab
    have hfi2 : findLabelIdx a permuted = some i := by
      rw [← hlab]
      exact findLabelIdx_get permuted hn i h
    have hij : i = j := Option.some.inj (hfi2.symm.trans hfi)
    rw [hij]

theorem isCorrect_shuffle (q : Question) (permuted : List Choice)
    (hperm : q.choices.Perm permuted)
    (hnodup : (q.choices.map Choice.label).Nodup)
    (hlen : q.choices.length ≤ 26)
    (hlower : ∀ c ∈ q.choices, strLower c.label = c.label)
    (hsub : ∀ a ∈ gradingList q, a ∈ q.choices.map Choice.label)
    (i : Nat) (h : i < permuted.length) :
    isCorrectSelection (shuffleQuestionChoices q permuted) (labelOf i)
      = isCorrectSelection q ((permuted.get ⟨i, h⟩).label) := by
  have hn' : (permuted.map Choice.label).Nodup := (hperm.map Choice.label).nodup_iff.mp hnodup
  have hlen' : permuted.length ≤ 26 := hperm.length_eq ▸ hlen
  have hlow' : ∀ c ∈ permuted, strLower c.label = c.label :=
    fun c hc => hlower c (hperm.mem_iff.mpr hc)
  have hsub' : ∀ a ∈ gradingList q, a ∈ permuted.map Choice.label :=
    fun a hga => (hperm.map Choice.label).mem_iff.mp (hsub a hga)
  have hlbl : strLower ((permuted.get ⟨i, h⟩).label) = (permuted.get ⟨i, h⟩).label :=
    hlow' _ (List.get_mem permuted i h)
  rw [Bool.eq_iff_iff]
  unfold isCorrectSelection
  rw [gradingList_shuffle, List.any_map]
  simp only [List.any_eq_true, Function.comp]
  constructor
  · rintro ⟨a, hga, hpa⟩
    refine ⟨a, hga, ?_⟩
    rw [newLabel_match permuted hn' hlen' a (hsub' a hga) i h] at hpa
    have haa : (permuted.get ⟨i, h⟩).label = a := beq_iff_eq.mp hpa
    have halow : strLower a = a := by
      obtain ⟨c, hc, rfl⟩ := List.mem_map.mp (hsub' a hga)
      exact hlow' c hc
    rw [beq_iff_eq, halow, hlbl]
    exact haa.symm
  · rintro ⟨a, hga, hpa⟩
    refine ⟨a, hga, ?_⟩
    have halow : strLower a = a := by
      obtain ⟨c, hc, rfl⟩ := List.mem_map.mp (hsub' a hga)
      exact hlow' c hc
    rw [beq_iff_eq, halow, hlbl] at hpa
    rw [newLabel_match permuted hn' hlen' a (hsub' a hga) i h, beq_iff_eq]
    exact hpa.symm

/-- C6.  Modelled from the spec (§4.6): for every question with duplicate-free
lowercase labels whose grading entries name actual choice labels, and every
permutation of its choices, grading a selection by the text content of the
chosen option yields the same result before and after the shuffle — the set
of choice texts identified as correct is unchanged, only labels move. -/
theorem claim_C6_shuffle_invariance (q : Question) (permuted : List Choice)
    (hperm : q.choices.Perm permuted)
    (hnodup : (q.choices.map Choice.label).Nodup)
    (hlen : q.choices.length ≤ 26)
    (hlower : ∀ c ∈ q.choices, strLower c.label = c.label)
    (hsub : ∀ a ∈ gradingList q, a ∈ q.choices.map Choice.label)
    (selectedText : String) :
    gradeByText (shuffleQuestionChoices q permuted) selectedText
      = gradeByText q selectedText := by
  have hch : (shuffleQuestionChoices q permuted).choices = relabelChoices 0 permuted := rfl
  rw [Bool.eq_iff_iff]
  unfold gradeByText
  rw [hch, relabel_any]
  simp only [Nat.zero_add, Bool.and_eq_true, beq_iff_eq, List.any_eq_true]
  constructor
  · rintro ⟨i, hi, htext, hcor⟩
    rw [isCorrect_shuffle q permuted hperm hnodup hlen hlower hsub i hi] at hcor
    exact ⟨permuted.get ⟨i, hi⟩, hperm.mem_iff.mpr (List.get_mem permuted i hi), htext, hcor⟩
  · rintro ⟨c, hc, htext, hcor⟩
    obtain ⟨⟨i, hi⟩, hget⟩ := List.mem_iff_get.mp (hperm.mem_iff.mp hc)
    refine ⟨i, hi, ?_, ?_⟩
    · rw [hget]; exact htext
    · rw [isCorrect_shuffle q permuted hperm hnodup hlen hlower hsub i hi, hget]
      exact hcor

/-- Witness for C6 at the spec's concrete scenario 5: shuffling the question
with choices `a:"X"`, `b:"Y"`, `c:"Z"` and `correctAnswer = "b"` under the
permutation that moves `"Y"` to position 0 relabels the correct answer to
`"a"`, and text-grading of `"Y"` and `"X"` is unchanged. -/
theorem claim_C6_shuffle_invariance_witness :
    gradeByText (shuffleQuestionChoices q0 perm0) "Y" = gradeByText q0 "Y"
    ∧ gradeByText (shuffleQuestionChoices q0 perm0) "X" = gradeByText q0 "X"
    ∧ (shuffleQuestionChoices q0 perm0).correctAnswer = "a"
    ∧ gradeByText q0 "Y" = true := by
  refine ⟨?_, ?_, by decide, by decide⟩
  · exact claim_C6_shuffle_invariance q0 perm0 (by decide) (by decide) (by decide)
      (by decide) (by decide) "Y"
  · exact claim_C6_shuffle_invariance q0 perm0 (by decide) (by decide) (by decide)
      (by decide) (by decide) "X"

end JudoExam
